import Mathlib

/-!
Verification of the SessionLink extension core against its specification.

The definitions below are a shallow embedding of the JavaScript source:
JS strings are modelled as Lean `String`s (lists of characters), regex
replacement passes as explicit left-to-right scanners, the persisted
extension store as a Lean structure, and the asynchronous provider call
as an oracle argument (`Except String String`).
-/

namespace SessionLink

/-- JS character sequences; the sanitizer scanners work on these. -/
abbrev Chars := List Char

/-- The whitespace class used by JS `\s` and `String.prototype.trim`
(ASCII part; the inputs of interest are ASCII). -/
def isJsSpace (c : Char) : Bool :=
  c = ' ' || c = '\t' || c = '\n' || c = '\r' || c = '\x0b' || c = '\x0c'

/-- JS `\w` word-character class: `[A-Za-z0-9_]`. -/
def isWordChar (c : Char) : Bool :=
  c.isAlpha || c.isDigit || c = '_'

/-- Case-insensitive literal match: `matchCI pat s` returns the rest of `s`
after consuming `pat` (whose characters are given in lower case) at the
head of `s`, or `none` if `s` does not start with `pat`. -/
def matchCI : Chars → Chars → Option Chars
  | [], s => some s
  | _ :: _, [] => none
  | p :: ps, c :: cs => if c.toLower = p then matchCI ps cs else none

/-- Consume up to and including the first occurrence of a (case-insensitive)
literal `pat`; models the lazy `[\s\S]*?lit` part of the block regexes. -/
def dropThroughCI (pat : Chars) : Chars → Option Chars
  | [] => none
  | c :: cs =>
    match matchCI pat (c :: cs) with
    | some rest => some rest
    | none => dropThroughCI pat cs

/-- Consume up to and including the first `'>'`; models `[^>]*>` after the
match position (the greedy `[^>]*` stops exactly at the first `'>'`). -/
def dropThroughGt : Chars → Option Chars
  | [] => none
  | c :: cs => if c = '>' then some cs else dropThroughGt cs

/-- A matcher at the head of a block regex `<lit[^>]*>[\s\S]*?</lit>` (with
the `i` flag), e.g. `<script[^>]*>[\s\S]*?<\/script>`: the opening literal,
everything up to the first `'>'`, then lazily up to the closing literal. -/
def blockMatch (openLit closeLit : Chars) (s : Chars) : Option Chars :=
  match matchCI openLit s with
  | none => none
  | some afterLit =>
    match dropThroughGt afterLit with
    | none => none
    | some afterOpen => dropThroughCI closeLit afterOpen

/-- Matcher for `/<script[^>]*>[\s\S]*?<\/script>/gi`. -/
def scriptBlockMatch (s : Chars) : Option Chars :=
  blockMatch ['<', 's', 'c', 'r', 'i', 'p', 't']
    ['<', '/', 's', 'c', 'r', 'i', 'p', 't', '>'] s

/-- Matcher for `/<style[^>]*>[\s\S]*?<\/style>/gi`. -/
def styleBlockMatch (s : Chars) : Option Chars :=
  blockMatch ['<', 's', 't', 'y', 'l', 'e']
    ['<', '/', 's', 't', 'y', 'l', 'e', '>'] s

/-- Matcher for `/<[^>]+>/g`: `'<'`, at least one non-`'>'` character, then
the first `'>'`. -/
def tagMatch : Chars → Option Chars
  | '<' :: c :: cs => if c = '>' then none else dropThroughGt (c :: cs)
  | _ => none

/-- Matcher for the case-insensitive literal `/javascript:/gi`. -/
def jsUriMatch (s : Chars) : Option Chars :=
  matchCI ['j', 'a', 'v', 'a', 's', 'c', 'r', 'i', 'p', 't', ':'] s

/-- Matcher for `/on\w+\s*=/gi`: `on` (case-insensitive), at least one word
character (greedy), optional whitespace (greedy), then `'='`. -/
def onHandlerMatch : Chars → Option Chars
  | c1 :: c2 :: rest =>
    if c1.toLower = 'o' && c2.toLower = 'n' then
      let w := rest.takeWhile isWordChar
      if w = [] then none
      else
        match (rest.drop w.length).dropWhile isJsSpace with
        | '=' :: r => some r
        | _ => none
    else none
  | _ => none

/-- One pass of JS `String.prototype.replace` with a `g`-flagged regex and
empty replacement: scan left to right; at each position, if the matcher
fires, drop the matched text and continue after it, else keep the character.
`fuel` bounds the recursion (every matcher here consumes at least one
character, so `fuel = length` never runs out). -/
def replaceScan (m : Chars → Option Chars) : Nat → Chars → Chars
  | 0, s => s
  | _ + 1, [] => []
  | fuel + 1, c :: cs =>
    match m (c :: cs) with
    | some rest => replaceScan m fuel rest
    | none => c :: replaceScan m fuel cs

/-- JS global-replace with the empty replacement for the matchers above. -/
def jsReplaceAll (m : Chars → Option Chars) (s : Chars) : Chars :=
  replaceScan m s.length s

/-- JS `String.prototype.trim`. -/
def jsTrim (s : Chars) : Chars :=
  ((s.dropWhile isJsSpace).reverse.dropWhile isJsSpace).reverse

/-- The five replacement passes plus the final trim of `sanitize` /
`sanitizeText` (both content-script variants are this same chain). -/
def sanitizeChars (s : Chars) : Chars :=
  jsTrim (jsReplaceAll onHandlerMatch
    (jsReplaceAll jsUriMatch
      (jsReplaceAll tagMatch
        (jsReplaceAll styleBlockMatch
          (jsReplaceAll scriptBlockMatch s)))))

/-- Model of `sanitize(text)` from the content script.  The argument is
Option-typed to model JS null/undefined inputs; the falsy guard on `text`
returns the empty string for those and for an empty input. -/
def sanitize (text : Option String) : String :=
  match text with
  | none => ""
  | some s => if s = "" then "" else ⟨sanitizeChars s.data⟩

/-! ## Adapter registry (`PLATFORMS` / `detectPlatform`) -/

/-- Does `needle` occur as a contiguous substring of `hay`?  Models
JS `hay.indexOf(needle) !== -1` (`literalAt` checks an occurrence at the
current position). -/
def literalAt : Chars → Chars → Bool
  | [], _ => true
  | _ :: _, [] => false
  | p :: ps, c :: cs => p = c && literalAt ps cs

/-- JS `hay.indexOf(needle) !== -1`. -/
def strIncludes (needle hay : Chars) : Bool :=
  match hay with
  | [] => literalAt needle []
  | c :: cs => literalAt needle (c :: cs) || strIncludes needle cs

/-- The three registered platform adapters, in registration order. -/
inductive PlatformId
  | chatgpt
  | claude
  | gemini
deriving DecidableEq, Repr

/-- Host pattern lists of each entry of the `PLATFORMS` table. -/
def hostPatterns : PlatformId → List String
  | .chatgpt => ["chatgpt.com", "chat.openai.com"]
  | .claude => ["claude.ai"]
  | .gemini => ["gemini.google.com"]

/-- Iteration order of the platform table keys (insertion order). -/
def platformsOrder : List PlatformId :=
  [.chatgpt, .claude, .gemini]

/-- Does some host pattern of platform `p` occur in `hostname`? -/
def patternHits (p : PlatformId) (hostname : String) : Bool :=
  (hostPatterns p).any (fun pat => strIncludes pat.data hostname.data)

/-- Model of `detectPlatform` from the content script: walk the platforms in
registration order and return the first whose host pattern list contains a
substring of the hostname; `null` (here `none`) otherwise. -/
def detectPlatform (hostname : String) : Option PlatformId :=
  platformsOrder.find? (fun p => patternHits p hostname)

/-! ## Persisted store and the dispatch service -/

/-- A persisted `Summary` record (`saveData` in the source). -/
structure SaveData where
  id : String
  summary : String
  platform : String
  url : String
  timestamp : String
  preview : String
deriving DecidableEq, Repr

/-- The persisted `settings` record; fields are optional because a stored
JS object may lack them. -/
structure Settings where
  apiProvider : Option String := none
  apiKey : Option String := none
deriving DecidableEq, Repr

/-- Contents of the extension storage: the `settings` record (absent before
first save) and the `saves` list (absent reads as `[]` via `|| []`). -/
structure Store where
  settings : Option Settings := none
  saves : List SaveData := []
deriving DecidableEq, Repr

/-- A `{success, data?, error?, hasSaved?}` response object. -/
structure Response where
  success : Bool
  error : Option String := none
  data : Option SaveData := none
deriving DecidableEq, Repr

/-- JS `v || dflt` for an (optional) string value: `null`/`undefined` and
the empty string are falsy. -/
def jsOr (v : Option String) (dflt : String) : String :=
  match v with
  | none => dflt
  | some s => if s = "" then dflt else s

/-- JS `s.substring(a, b)` (for `a ≤ b`; code units = characters here). -/
def jsSubstring (s : String) (a b : Nat) : String :=
  ⟨(s.data.drop a).take (b - a)⟩

/-- The pure update `saveSummary` performs on the `saves` list: unshift the
new record, then keep only the first 20 entries. -/
def saveSummary (saves : List SaveData) (saveData : SaveData) : List SaveData :=
  let saves2 := saveData :: saves
  if 20 < saves2.length then saves2.take 20 else saves2

/-- The summarize request as received by the background service. -/
structure CaptureRequest where
  conversation : Option String := none
  platform : Option String := none
  url : Option String := none
  timestamp : Option String := none

/-- The `saveData` object built by the service-worker variant
(`part_001` `handleSummarize`): `preview = summary.substring(0, 120)` and
`||`-defaults for the request fields (`now` models `new Date().toISOString()`). -/
def mkSaveDataSW (genId summary : String) (msg : CaptureRequest) (now : String) :
    SaveData where
  id := genId
  summary := summary
  platform := jsOr msg.platform "Unknown"
  url := jsOr msg.url ""
  timestamp := jsOr msg.timestamp now
  preview := jsSubstring summary 0 120

/-- The `saveData` object built by `scripts/background.js`
`handleSummarize`: the preview is the first 100 characters of the summary
with an appended ellipsis, and the
request fields taken as-is. -/
def mkSaveDataBG (genId summary platform url timestamp : String) : SaveData where
  id := genId
  summary := summary
  platform := platform
  url := url
  timestamp := timestamp
  preview := jsSubstring summary 0 100 ++ "..."

/-- Outcome of one `summarize` request: the response sent back, whether the
provider endpoint was contacted, and the store afterwards. -/
structure SummarizeOutcome where
  response : Response
  providerCalled : Bool
  store : Store
deriving Repr

/-- Model of `handleSummarize` (service-worker variant, part_001): read settings,
fail with the credential error if `!settings.apiKey`; dispatch on
the provider named by `apiProvider` (defaulting to openai); the round trip is the oracle
`providerResult` (its `.error` case covers network failure, a non-ok status
and a malformed body, all of which reject the fetch chain); on success build
the summary record via `mkSaveDataSW` and persist it with `saveSummary`.
The storage I/O itself is modelled as error-free. -/
def handleSummarize (store : Store) (msg : CaptureRequest)
    (providerResult : Except String String) (genId now : String) :
    SummarizeOutcome :=
  let settings := store.settings.getD {}
  if settings.apiKey.getD "" = "" then
    { response :=
        { success := false
          error := some "API key not configured. Open the SessionLink popup and add your API key." }
      providerCalled := false
      store := store }
  else
    let provider := jsOr settings.apiProvider "openai"
    let onResult : SummarizeOutcome :=
      match providerResult with
      | .ok summary =>
        let saveData := mkSaveDataSW genId summary msg now
        { response := { success := true, data := some saveData }
          providerCalled := true
          store := { store with saves := saveSummary store.saves saveData } }
      | .error e =>
        { response := { success := false, error := some e }
          providerCalled := true
          store := store }
    if provider = "openai" then onResult
    else if provider = "gemini" then onResult
    else
      { response :=
          { success := false
            error := some ("Invalid API provider: " ++ provider) }
        providerCalled := false
        store := store }

/-- Model of `deleteSave`: filter out records whose id matches; always respond
`{success: true}`. -/
def deleteSave (store : Store) (idv : String) : Response × Store :=
  let filtered := store.saves.filter (fun s => s.id != idv)
  ({ success := true }, { store with saves := filtered })

/-! ## The concurrent read-modify-write of `saveSummary`

The persistence step of each summarize request is a storage get of `saves`
followed, in the callback, by `storage.set` of the updated list.  Two
concurrent requests therefore produce an interleaving of two read events
and two write events (each write applies the prepend-and-truncate update
to the snapshot its own read observed).  Nothing in the code serializes
the two get/set pairs. -/

/-- Events of two concurrent `saveSummary` read-modify-write sequences. -/
inductive RmwEvt
  | read1
  | write1
  | read2
  | write2
deriving DecidableEq, Repr

/-- Interleaving state: the persisted list and the snapshot that the storage
get callback of each request captured (if its read happened yet). -/
structure RmwState where
  saves : List SaveData := []
  snap1 : Option (List SaveData) := none
  snap2 : Option (List SaveData) := none
deriving DecidableEq, Repr

/-- One event of the interleaved execution: a read snapshots the current
list; a write stores `saveSummary snapshot dᵢ`, exactly as the `get`
callback computes it. -/
def rmwStep (d1 d2 : SaveData) (s : RmwState) : RmwEvt → RmwState
  | .read1 => { s with snap1 := some s.saves }
  | .write1 =>
    match s.snap1 with
    | some snap => { s with saves := saveSummary snap d1 }
    | none => s
  | .read2 => { s with snap2 := some s.saves }
  | .write2 =>
    match s.snap2 with
    | some snap => { s with saves := saveSummary snap d2 }
    | none => s

/-- Run a schedule of events over the store. -/
def runRmw (d1 d2 : SaveData) (sched : List RmwEvt) (init : RmwState) :
    RmwState :=
  sched.foldl (rmwStep d1 d2) init

/-! ## Transcript scraper (`scrapeConversation`, content-script `part_002`)

A DOM fixture is modelled as the document-ordered list of its candidate
message elements.  Per element we record exactly what the scraper inspects:
the `data-message-author-role` attribute, whether the element matches the
user / assistant / combined message selectors of the adapter, the text
`getMessageText` extracts from it (already trimmed), and its vertical
position (used only by the fallback sort). -/

structure Node where
  roleAttr : Option String := none
  matchesUser : Bool := false
  matchesAssistant : Bool := false
  matchesAll : Bool := false
  text : String := ""
  pos : Int := 0
deriving DecidableEq, Repr

/-- A scraped `{role, content}` message. -/
structure Message where
  role : String
  content : String
deriving DecidableEq, Repr

/-- Role inference for one element: the `data-message-author-role`
attribute if present and non-empty (the falsy check covers null and empty),
else by testing the user-specific selector. -/
def nodeRole (n : Node) : String :=
  let role := n.roleAttr.getD ""
  if role = "" then (if n.matchesUser then "user" else "assistant") else role

/-- The message one element contributes. -/
def nodeMsg (n : Node) : Message :=
  { role := nodeRole n, content := n.text }

/-- The primary pass: all elements matching the combined selector, role per
`nodeRole`, skipping elements whose extracted text is empty. -/
def primaryScrape (doc : List Node) : List Message :=
  (doc.filter (fun n => n.matchesAll)).filterMap
    (fun el => if el.text = "" then none else some (nodeMsg el))

/-- Stable insertion of one role-tagged element into a list sorted by
ascending vertical position (models JS `Array.prototype.sort`, which is
stable, with the `top`-difference comparator). -/
def insertByPos (x : Node × String) : List (Node × String) → List (Node × String)
  | [] => [x]
  | y :: ys =>
    if x.1.pos ≤ y.1.pos then x :: y :: ys else y :: insertByPos x ys

/-- Stable sort by ascending vertical position. -/
def sortByPos : List (Node × String) → List (Node × String)
  | [] => []
  | x :: xs => insertByPos x (sortByPos xs)

/-- The fallback pass: query user-only and assistant-only selector sets,
tag each element with its known role, sort the combined set by vertical
position, and keep the non-empty texts. -/
def fallbackScrape (doc : List Node) : List Message :=
  let userEls := (doc.filter (fun n => n.matchesUser)).map (fun el => (el, "user"))
  let assistEls :=
    (doc.filter (fun n => n.matchesAssistant)).map (fun el => (el, "assistant"))
  let combined := sortByPos (userEls ++ assistEls)
  combined.filterMap
    (fun p => if p.1.text = "" then none else some { role := p.2, content := p.1.text })

/-- Model of `scrapeConversation`: the default `maxTurns = maxTurns || 15` (a falsy
argument becomes 15); primary pass, fallback when it produced nothing, then
keep only the last `maxTurns * 2` messages. -/
def scrapeConversation (doc : List Node) (maxTurns : Nat) : List Message :=
  let mt := if maxTurns = 0 then 15 else maxTurns
  let messages :=
    if primaryScrape doc = [] then fallbackScrape doc else primaryScrape doc
  let limit := mt * 2
  if limit < messages.length then messages.drop (messages.length - limit)
  else messages

/-- The alternating role sequence `["user", "assistant", "user", ...]` of
length `k`. -/
def rolePattern (k : Nat) : List String :=
  (List.range k).map (fun i => if i % 2 = 0 then "user" else "assistant")

/-! ## Concrete fixtures used by the theorems below -/

/-- A simple numbered summary record, for exercising the store. -/
def mkS (n : Nat) : SaveData :=
  { id := toString n, summary := toString n, platform := "", url := "",
    timestamp := "", preview := "" }

/-- The store contents after inserting `mkS 1, ..., mkS k` in order into a
fresh (empty) store. -/
def insertSeq (k : Nat) : List SaveData :=
  (List.range' 1 k).foldl (fun acc n => saveSummary acc (mkS n)) []

/-- A user message element of a well-formed fixture. -/
def nodeW1 : Node :=
  { roleAttr := some "user", matchesUser := true, matchesAll := true,
    text := "build a todo app", pos := 0 }

/-- An assistant message element of a well-formed fixture. -/
def nodeW2 : Node :=
  { roleAttr := some "assistant", matchesAssistant := true, matchesAll := true,
    text := "ok, using React", pos := 100 }

/-- A two-message well-formed DOM fixture. -/
def docW : List Node := [nodeW1, nodeW2]

/-! ## Store lemmas -/

/-- Every insert places the new summary at the head of the list. -/
theorem saveSummary_head (saves : List SaveData) (s : SaveData) :
    (saveSummary saves s).head? = some s := by
  unfold saveSummary
  dsimp only
  split
  · rw [show (20 : Nat) = 19 + 1 from rfl, List.take_succ_cons]
    rfl
  · rfl

/-- One insert keeps the list within the capacity of 20. -/
theorem saveSummary_len (saves : List SaveData) (s : SaveData)
    (h : saves.length ≤ 20) : (saveSummary saves s).length ≤ 20 := by
  unfold saveSummary
  dsimp only
  split
  next h2 => simp only [List.length_take]; omega
  next h2 => simp only [List.length_cons] at h2 ⊢; omega

/-- Any fold of inserts over a within-capacity list stays within capacity. -/
theorem foldl_saveSummary_len (ss : List SaveData) :
    ∀ init : List SaveData, init.length ≤ 20 →
      (ss.foldl saveSummary init).length ≤ 20 := by
  induction ss with
  | nil => intro init h; simpa using h
  | cons s rest ih =>
    intro init h
    simp only [List.foldl_cons]
    exact ih _ (saveSummary_len init s h)

/-! ## Scraper lemmas -/

/-- On a fixture whose elements all match the combined selector and have
non-empty text, the primary pass returns one message per element, in
document order. -/
theorem primaryScrape_eq_map (doc : List Node)
    (hall : ∀ n ∈ doc, n.matchesAll = true ∧ n.text ≠ "") :
    primaryScrape doc = doc.map nodeMsg := by
  induction doc with
  | nil => rfl
  | cons a l ih =>
    have ha := hall a (List.mem_cons_self a l)
    have hl := ih (fun n hn => hall n (List.mem_cons_of_mem a hn))
    unfold primaryScrape at hl ⊢
    rw [List.filter_cons_of_pos ha.1, List.filterMap_cons]
    simp only [if_neg ha.2]
    rw [hl, List.map_cons]

/-- Dropping an even number of entries from an alternating role sequence
yields the alternating role sequence of the remaining length. -/
theorem rolePattern_drop (N d : Nat) (he : d % 2 = 0) :
    (rolePattern N).drop d = rolePattern (N - d) := by
  apply List.ext_getElem
  · simp [rolePattern]
  · intro i h1 h2
    rw [List.getElem_drop]
    unfold rolePattern
    rw [List.getElem_map, List.getElem_map, List.getElem_range,
      List.getElem_range]
    have hmod : (d + i) % 2 = i % 2 := by omega
    rw [hmod]

/-- The role of the message contributed by an element is its inferred role. -/
theorem role_comp_nodeMsg : Message.role ∘ nodeMsg = nodeRole := by
  funext n; rfl

/-! ## Claim theorems -/

/-- C1 (code bug): the spec requires the read-modify-write of the bounded
insert to be serialized so that two concurrent successful summarize calls
against an empty store leave both entries (final length 2).  The code has no
such serialization: each request reads the saves list and later writes its
own updated copy.  In the interleaving where both storage reads happen
before either write (permitted by the code), the first insert is silently
lost — the final list is just `[d2]`, length 1, not 2.  A serialized
schedule does keep both entries. -/
theorem summarize_rmw_race (d1 d2 : SaveData) :
    (runRmw d1 d2 [.read1, .read2, .write1, .write2] {}).saves.length = 1 ∧
    (runRmw d1 d2 [.read1, .read2, .write1, .write2] {}).saves = [d2] ∧
    (runRmw d1 d2 [.read1, .write1, .read2, .write2] {}).saves = [d2, d1] :=
  ⟨rfl, rfl, rfl⟩

/-- C2 (confirmed): inserting S1..S25 in order into a fresh store yields
exactly 20 entries with head S25 and tail S6; after any sequence of inserts
into a fresh store the length never exceeds 20; and every insert places the
new summary at the head. -/
theorem saveSummary_bounded_insert :
    ((insertSeq 25).length = 20 ∧ (insertSeq 25).head? = some (mkS 25) ∧
      (insertSeq 25).getLast? = some (mkS 6)) ∧
    (∀ ss : List SaveData, (ss.foldl saveSummary []).length ≤ 20) ∧
    (∀ (saves : List SaveData) (s : SaveData),
      (saveSummary saves s).head? = some s) := by
  refine ⟨by decide, ?_, saveSummary_head⟩
  intro ss
  exact foldl_saveSummary_len ss [] (by simp)

/-- C3 counterexample: the sanitizer is not idempotent.  On the input
`"javajavascript:script:"` the single global pass removes the embedded
occurrence and thereby splices together a new `javascript:` fragment, so a
second application removes more. -/
theorem sanitize_not_idempotent_cex :
    sanitize (some (sanitize (some "javajavascript:script:"))) ≠
      sanitize (some "javajavascript:script:") := by decide

/-- C3 (corrected): the sanitizer strips tag/script/style fragments as
specified — the script example yields `"hello"`, and that output is itself a
sanitizer fixpoint — but idempotence fails in general (see the
counterexample). -/
theorem sanitize_strips_markup :
    sanitize (some "<script>x</script>hello") = "hello" ∧
    sanitize (some "hello") = "hello" := by decide

/-- C4 (confirmed): on a DOM fixture of N well-formed message nodes (all
matching the combined selector, non-empty text, roles alternating
user/assistant, N even), scrape with a positive turn limit returns exactly
`min N (turnLimit * 2)` messages, namely the most recent tail of the
fixture in document order, with roles still alternating. -/
theorem scrape_wellformed_spec (doc : List Node) (t : Nat) (ht : 1 ≤ t)
    (hall : ∀ n ∈ doc, n.matchesAll = true ∧ n.text ≠ "")
    (hroles : doc.map nodeRole = rolePattern doc.length)
    (heven : doc.length % 2 = 0) :
    (scrapeConversation doc t).length = min doc.length (t * 2) ∧
    scrapeConversation doc t =
      (doc.map nodeMsg).drop (doc.length - min doc.length (t * 2)) ∧
    (scrapeConversation doc t).map Message.role =
      rolePattern (min doc.length (t * 2)) := by
  have hprim := primaryScrape_eq_map doc hall
  have hmsgs :
      (if primaryScrape doc = [] then fallbackScrape doc else primaryScrape doc) =
        doc.map nodeMsg := by
    by_cases hp : primaryScrape doc = []
    · rw [if_pos hp]
      have hd : doc = [] := by
        rw [hprim] at hp
        exact List.map_eq_nil_iff.mp hp
      subst hd; rfl
    · rw [if_neg hp, hprim]
  have hmt : (if t = 0 then 15 else t) = t := by
    rw [if_neg (by omega)]
  have hscr : scrapeConversation doc t =
      if t * 2 < (doc.map nodeMsg).length then
        (doc.map nodeMsg).drop ((doc.map nodeMsg).length - t * 2)
      else doc.map nodeMsg := by
    unfold scrapeConversation
    dsimp only
    rw [hmsgs, hmt]
  rw [hscr, List.length_map]
  have hrole2 : (doc.map nodeMsg).map Message.role = rolePattern doc.length := by
    rw [List.map_map, role_comp_nodeMsg, hroles]
  by_cases hlt : t * 2 < doc.length
  · rw [if_pos hlt]
    have hmin : min doc.length (t * 2) = t * 2 := by omega
    rw [hmin]
    refine ⟨?_, rfl, ?_⟩
    · rw [List.length_drop, List.length_map]
      omega
    · rw [List.map_drop, hrole2,
        rolePattern_drop doc.length (doc.length - t * 2) (by omega)]
      congr 1
      omega
  · rw [if_neg hlt]
    have hmin : min doc.length (t * 2) = doc.length := by omega
    rw [hmin, Nat.sub_self, List.drop_zero]
    exact ⟨List.length_map _ _, rfl, hrole2⟩

/-- Witness for C4: the two-message fixture with turn limit 1. -/
theorem scrape_wellformed_spec_witness :
    (scrapeConversation docW 1).length = min docW.length (1 * 2) ∧
    scrapeConversation docW 1 =
      (docW.map nodeMsg).drop (docW.length - min docW.length (1 * 2)) ∧
    (scrapeConversation docW 1).map Message.role =
      rolePattern (min docW.length (1 * 2)) :=
  scrape_wellformed_spec docW 1 (by decide) (by decide) (by decide) (by decide)

/-- C5 counterexample: in the `scripts/background.js` variant the preview of
a constructed summary record is the first 100 characters plus an ellipsis,
which is not a prefix of the summary (here the summary is `"hello"` and the
preview `"hello..."`). -/
theorem preview_not_a_tail_cex :
    ¬ ∃ r : List Char,
      (mkSaveDataBG "i" "hello" "p" "u" "t").preview.data ++ r =
        (mkSaveDataBG "i" "hello" "p" "u" "t").summary.data := by
  rintro ⟨r, hr⟩
  have h := congrArg List.length hr
  simp only [List.length_append] at h
  have h1 : (mkSaveDataBG "i" "hello" "p" "u" "t").preview.data.length = 8 := by
    decide
  have h2 : (mkSaveDataBG "i" "hello" "p" "u" "t").summary.data.length = 5 := by
    decide
  rw [h1, h2] at h
  omega

/-- C5 (corrected): in the service-worker variant (part_001) every
constructed summary record has a preview that is a prefix of its summary,
namely its first (up to) 120 characters; the `scripts/background.js` variant
instead appends an ellipsis to the first (up to) 100 characters, which is
not in general a prefix. -/
theorem preview_construction_spec (gid s : String) (msg : CaptureRequest)
    (now p u ts : String) :
    (∃ r : List Char,
      (mkSaveDataSW gid s msg now).preview.data ++ r =
        (mkSaveDataSW gid s msg now).summary.data) ∧
    (mkSaveDataSW gid s msg now).preview = jsSubstring s 0 120 ∧
    (mkSaveDataBG gid s p u ts).preview = jsSubstring s 0 100 ++ "..." := by
  refine ⟨⟨s.data.drop 120, ?_⟩, rfl, rfl⟩
  show (s.data.drop 0).take 120 ++ s.data.drop 120 = s.data
  rw [List.drop_zero, List.take_append_drop]

/-- C6 (confirmed): detection is the first-registered-match-wins substring
lookup — characterized completely by the if-chain over the three pattern
sets — every registered host pattern resolves to its own adapter, the
legacy alias chat.openai.com resolves to the same adapter as chatgpt.com,
and an unrecognized hostname yields none. -/
theorem detect_platform_spec :
    (∀ h : String,
      detectPlatform h =
        if patternHits .chatgpt h then some .chatgpt
        else if patternHits .claude h then some .claude
        else if patternHits .gemini h then some .gemini
        else none) ∧
    detectPlatform "chatgpt.com" = some .chatgpt ∧
    detectPlatform "chat.openai.com" = some .chatgpt ∧
    detectPlatform "claude.ai" = some .claude ∧
    detectPlatform "gemini.google.com" = some .gemini ∧
    detectPlatform "example.com" = none := by
  refine ⟨?_, by decide, by decide, by decide, by decide, by decide⟩
  intro h
  unfold detectPlatform platformsOrder
  cases hc : patternHits .chatgpt h <;> cases hl : patternHits .claude h <;>
    cases hg : patternHits .gemini h <;> simp [List.find?, hc, hl, hg]

/-- C7 (confirmed): when the persisted settings have no API key (record or
key missing, or the key empty), a summarize request fails with the
credential error, the provider is never called, and the store is
unchanged. -/
theorem summarize_missing_key (store : Store) (msg : CaptureRequest)
    (pr : Except String String) (gid now : String)
    (h : (store.settings.getD {}).apiKey.getD "" = "") :
    (handleSummarize store msg pr gid now).response.success = false ∧
    (handleSummarize store msg pr gid now).response.error =
      some "API key not configured. Open the SessionLink popup and add your API key." ∧
    (handleSummarize store msg pr gid now).providerCalled = false ∧
    (handleSummarize store msg pr gid now).store = store := by
  unfold handleSummarize
  simp only [h, if_pos rfl]
  exact ⟨rfl, rfl, rfl, rfl⟩

/-- Witness for C7: a fresh store with no settings record. -/
theorem summarize_missing_key_witness :
    ((({} : Store).settings.getD {}).apiKey.getD "" = "") ∧
    (handleSummarize {} {} (.ok "S") "i" "t").response.success = false ∧
    (handleSummarize {} {} (.ok "S") "i" "t").providerCalled = false := by
  refine ⟨rfl, ?_, ?_⟩
  · exact (summarize_missing_key {} {} (.ok "S") "i" "t" rfl).1
  · exact (summarize_missing_key {} {} (.ok "S") "i" "t" rfl).2.2.1

/-- C8 (confirmed): deleting an id that is not in the saves list succeeds
(the response is a success, not an error) and leaves the store unchanged;
moreover deletion is idempotent on any store. -/
theorem deleteSave_missing_id (store : Store) (idv : String)
    (h : ∀ s ∈ store.saves, s.id ≠ idv) :
    (deleteSave store idv).1.success = true ∧
    (deleteSave store idv).2 = store ∧
    ∀ (st : Store) (j : String),
      deleteSave (deleteSave st j).2 j = deleteSave st j := by
  refine ⟨rfl, ?_, ?_⟩
  · have hf : store.saves.filter (fun s => s.id != idv) = store.saves := by
      rw [List.filter_eq_self]
      intro a ha
      simpa using h a ha
    unfold deleteSave
    dsimp only
    rw [hf]
  · intro st j
    unfold deleteSave
    dsimp only
    rw [List.filter_filter]
    simp

/-- Witness for C8: deleting an absent id from a one-element store. -/
theorem deleteSave_missing_id_witness :
    (∀ s ∈ ({ saves := [mkS 1] } : Store).saves, s.id ≠ "zz") ∧
    (deleteSave { saves := [mkS 1] } "zz").1.success = true ∧
    (deleteSave { saves := [mkS 1] } "zz").2 = { saves := [mkS 1] } := by
  refine ⟨by decide, ?_, ?_⟩
  · exact (deleteSave_missing_id { saves := [mkS 1] } "zz" (by decide)).1
  · exact (deleteSave_missing_id { saves := [mkS 1] } "zz" (by decide)).2.1

/-- C9 (confirmed): whenever the provider call fails (the oracle rejects:
network error, non-ok status, or malformed body), the summarize handler
returns a failure response and the store — in particular the saves list —
is unchanged: persistence happens only after provider success. -/
theorem summarize_provider_failure_atomic (store : Store)
    (msg : CaptureRequest) (e : String) (gid now : String) :
    (handleSummarize store msg (.error e) gid now).response.success = false ∧
    (handleSummarize store msg (.error e) gid now).store = store := by
  unfold handleSummarize
  dsimp only
  split
  · exact ⟨rfl, rfl⟩
  · split
    · exact ⟨rfl, rfl⟩
    · split
      · exact ⟨rfl, rfl⟩
      · exact ⟨rfl, rfl⟩

/-- C10 (confirmed): the sanitizer is total on degenerate inputs — for
null/undefined (modelled as `none`) and for the empty string it returns the
empty string rather than failing. -/
theorem sanitize_degenerate_total :
    sanitize none = "" ∧ sanitize (some "") = "" := ⟨rfl, rfl⟩

end SessionLink
